import Mathlib

/-!
Verification of the `ember` language-model module layer
(`src/ember/core/registry/model/core/modules/lm_modules.py`).

The Python source is shallowly embedded: Python `float` temperatures are
modelled as rationals (the source only compares them against the bounds
0.0 and 5.0, where rational order agrees with IEEE order on these small
values), Python `str.strip()` is modelled over the character list of the
string with the whitespace set CPython strips, keyword-argument
dictionaries are modelled as association lists, and exceptions are
modelled with `Except`.
-/

namespace Ember

/-- The characters CPython `str.strip()` removes: space, tab, newline,
carriage return, form feed, vertical tab. -/
def isPyWS (c : Char) : Bool :=
  c = ' ' || c = '\t' || c = '\n' || c = '\x0d' || c = '\x0c' || c = '\x0b'

/-- Model of Python `str.strip()`: drop the whitespace run at both ends. -/
def pyStrip (s : String) : String :=
  String.mk (((s.toList.dropWhile isPyWS).rdropWhile isPyWS))

/-- Model of Python `"\n".join(segments)`. -/
def joinNL : List String → String
  | [] => ""
  | [s] => s
  | s :: rest => s ++ "\n" ++ joinNL rest

/-- Python truthiness of an `Optional[str]` value: `None` and the empty
string are falsy, every other string is truthy. -/
def strTruthy : Option String → Bool
  | Option.none => false
  | some s => !s.isEmpty

/-- Embedding of `LMModuleConfig` (pydantic model, lines 15-47 of
`lm_modules.py`): model identifier, sampling temperature, optional token
cap, optional chain-of-thought prompt, optional persona. -/
structure LMModuleConfig where
  model_id : String
  temperature : ℚ
  max_tokens : Option Int
  cot_prompt : Option String
  persona : Option String
deriving Repr, DecidableEq

/-- Embedding of pydantic construction of `LMModuleConfig`: the
`temperature` field carries `ge=0.0, le=5.0` bounds, so construction
fails with a validation error outside `[0, 5]` and otherwise stores every
field unchanged.  The other fields carry no constraints. -/
def LMModuleConfig.validate (model_id : String) (temperature : ℚ)
    (max_tokens : Option Int) (cot_prompt : Option String)
    (persona : Option String) : Except String LMModuleConfig :=
  if temperature < 0 then
    Except.error "temperature: Input should be greater than or equal to 0"
  else if 5 < temperature then
    Except.error "temperature: Input should be less than or equal to 5"
  else
    Except.ok ⟨model_id, temperature, max_tokens, cot_prompt, persona⟩

/-- Embedding of `LMModule._assemble_full_prompt` (lines 136-153): the
list `segments` built by the method body.  The persona segment is the
f-string `"[Persona: {persona}]\n"` (note its own trailing newline); the
user prompt is stripped; the chain-of-thought segment is the f-string
`"\n\n# Chain of Thought:\n{cot}"` with `cot` stripped.  Both guards are
Python truthiness tests on the optional strings. -/
def assembleSegments (config : LMModuleConfig) (user_prompt : String) :
    List String :=
  (if strTruthy config.persona then
      ["[Persona: " ++ config.persona.getD "" ++ "]\n"]
    else []) ++
  [pyStrip user_prompt] ++
  (if strTruthy config.cot_prompt then
      ["\n\n# Chain of Thought:\n" ++ pyStrip (config.cot_prompt.getD "")]
    else [])

/-- Embedding of `LMModule._assemble_full_prompt` (lines 136-153):
`"\n".join(segments).strip()`. -/
def assemble_full_prompt (config : LMModuleConfig) (user_prompt : String) :
    String :=
  pyStrip (joinNL (assembleSegments config user_prompt))

/-- Python runtime exceptions surfaced by the embedded code. -/
inductive PyError
  | typeError (msg : String)
deriving Repr, DecidableEq

/-- A Python value that can travel through a keyword-argument dictionary;
only the shapes the module passes around are needed. -/
inductive PyVal
  | num (q : ℚ)
  | int (n : Int)
  | str (s : String)
  | none
deriving Repr, DecidableEq

/-- A `**kwargs` dictionary, modelled as an association list with
distinct keys left to the caller (Python call syntax cannot repeat a
keyword). -/
abbrev Kwargs := List (String × PyVal)

/-- Model of Python `kwargs.get(key, default)`. -/
def kwargsGet (kwargs : Kwargs) (key : String) (default : PyVal) : PyVal :=
  match kwargs.lookup key with
  | some v => v
  | Option.none => default

/-- The Python `max_tokens` value of the config as a `PyVal`
(`None` or an `int`). -/
def pyOfMaxTokens : Option Int → PyVal
  | Option.none => PyVal.none
  | some n => PyVal.int n

/-- The keyword arguments `forward` passes to `invoke_model`
explicitly.  A key of `**kwargs` that collides with one of them makes the
call raise `TypeError: got multiple values for keyword argument`. -/
def explicitInvokeKeys : List String :=
  ["model_id", "prompt", "temperature", "max_tokens"]

/-- The argument bundle `ModelService.invoke_model` receives when the
call in `LMModule.forward` succeeds. -/
structure InvokeCall where
  model_id : String
  prompt : String
  temperature : PyVal
  max_tokens : PyVal
  extra : Kwargs
deriving Repr, DecidableEq

/-- Embedding of the call `self.model_service.invoke_model(model_id=...,
prompt=final_prompt, temperature=kwargs.get(...), max_tokens=
kwargs.get(...), **kwargs)` inside `LMModule.forward` (lines 125-132).
CPython raises `TypeError` while building the argument mapping when
`**kwargs` repeats an explicit keyword, before the callee runs; otherwise
the callee receives the explicit keywords plus the remaining kwargs. -/
def forwardCall (config : LMModuleConfig) (prompt : String)
    (kwargs : Kwargs) : Except PyError InvokeCall :=
  let final_prompt := assemble_full_prompt config prompt
  match kwargs.find? (fun kv => explicitInvokeKeys.contains kv.1) with
  | some kv =>
      Except.error (PyError.typeError
        ("invoke_model() got multiple values for keyword argument " ++ kv.1))
  | Option.none =>
      Except.ok
        { model_id := config.model_id
          prompt := final_prompt
          temperature := kwargsGet kwargs "temperature" (PyVal.num config.temperature)
          max_tokens := kwargsGet kwargs "max_tokens" (pyOfMaxTokens config.max_tokens)
          extra := kwargs }

/-- The response object `invoke_model` returns, at the granularity
`forward` inspects it: whether it has a `data` attribute (and its value),
and its `str()` conversion. -/
structure PyResponse where
  data : Option String
  str : String

/-- Embedding of the return expression of `forward` (line 134):
`response.data if hasattr(response, "data") else str(response)`. -/
def extractResponseText (response : PyResponse) : String :=
  match response.data with
  | some d => d
  | Option.none => response.str

/-- Modelled from the spec: `ModelRegistry` is defined outside the
visible sources (`ember.core.registry.model.model_registry`); the spec
describes it as the cache of live provider instances.  Its internals are
irrelevant to the visible code, so it is abstracted to an opaque tag. -/
structure ModelRegistry where
  tag : Nat
deriving Repr, DecidableEq

/-- Modelled from the spec: the module-level global registry imported by
`lm_modules.py`. -/
def GLOBAL_MODEL_REGISTRY : ModelRegistry := ⟨0⟩

/-- Modelled from the spec: `UsageService` accumulates usage records;
`UsageService()` constructs a fresh empty accumulator. -/
structure UsageService where
  records : List (String × Nat)
deriving Repr, DecidableEq

/-- Modelled from the spec: the `UsageService()` constructor. -/
def UsageService.new : UsageService := ⟨[]⟩

/-- Modelled from the spec: `ModelService(registry=..., usage_service=...)`
is the orchestration facade built from a registry and a usage service. -/
structure ModelService where
  registry : ModelRegistry
  usage_service : UsageService
deriving Repr, DecidableEq

/-- Embedding of `get_default_model_service` (lines 50-63): both
parameters are immediately rebound, `registry` to the module-level
`GLOBAL_MODEL_REGISTRY` and `usage_service` to a fresh `UsageService()`,
before the `ModelService` is constructed. -/
def get_default_model_service (registry : ModelRegistry)
    (usage_service : UsageService) : ModelService :=
  let registry := GLOBAL_MODEL_REGISTRY
  let usage_service := UsageService.new
  ModelService.mk registry usage_service

/-- Embedding of the `LMModule` object state: the stored config and the
stored service. -/
structure LMModule where
  config : LMModuleConfig
  model_service : ModelService
deriving Repr, DecidableEq

/-- Embedding of `LMModule.__init__` (lines 79-95).  When `model_service`
is `None` the body evaluates `get_default_model_service()` with zero
arguments; the Python function object declares two required positional
parameters (`registry`, `usage_service`), so CPython raises `TypeError`
at the call site, before `self.config` or `self.model_service` is
assigned.  When a service is supplied, both fields are stored. -/
def LMModule.init (config : LMModuleConfig)
    (model_service : Option ModelService) : Except PyError LMModule :=
  match model_service with
  | Option.none =>
      Except.error (PyError.typeError
        "get_default_model_service() missing 2 required positional arguments"
        )
  | some svc => Except.ok ⟨config, svc⟩

/-- Embedding of `LMModule.forward` (lines 111-134), which `__call__`
delegates to unchanged (lines 97-109).  The model service behaviour is a
parameter (its code is outside the visible sources); the method returns
its result together with the object state after the call — the body
assigns to no attribute, which the pair makes checkable. -/
def LMModule.forward (m : LMModule) (service : InvokeCall → PyResponse)
    (prompt : String) (kwargs : Kwargs) :
    Except PyError String × LMModule :=
  ((forwardCall m.config prompt kwargs).map
      (fun c => extractResponseText (service c)),
   m)

/-- Sample config used to instantiate theorems with hypotheses. -/
def sampleConfig : LMModuleConfig :=
  ⟨"openai:gpt-4o", 1, some 64, Option.none, Option.none⟩

/-- Sample module built over `sampleConfig`. -/
def sampleModule : LMModule :=
  ⟨sampleConfig, ModelService.mk GLOBAL_MODEL_REGISTRY UsageService.new⟩

/-- The argument bundle `forwardCall` produces for `sampleModule`, the
prompt `"hi"` and empty kwargs. -/
def sampleCall : InvokeCall :=
  ⟨"openai:gpt-4o", "hi", PyVal.num 1, PyVal.int 64, []⟩

/-- The config of the worked prompt-assembly example: persona `Helper`,
chain of thought `Think step by step`. -/
def exampleConfig : LMModuleConfig :=
  ⟨"openai:gpt-4o", 1, Option.none, some "Think step by step", some "Helper"⟩

end Ember

namespace Ember

/-- Stripping the leading whitespace run of an already fully stripped
list changes nothing: the first remaining element, if any, fails the
predicate. -/
theorem stripList_dropWhile_eq {α : Type} (p : α → Bool) (l : List α) :
    ((l.dropWhile p).rdropWhile p).dropWhile p
      = (l.dropWhile p).rdropWhile p := by
  rw [List.dropWhile_eq_self_iff]
  intro hl
  have hpre : (l.dropWhile p).rdropWhile p <+: l.dropWhile p :=
    List.rdropWhile_prefix p (l.dropWhile p)
  have hlen : 0 < (l.dropWhile p).length := lt_of_lt_of_le hl hpre.length_le
  have hget : ((l.dropWhile p).rdropWhile p).get ⟨0, hl⟩
      = (l.dropWhile p).get ⟨0, hlen⟩ := by
    simpa [List.get_eq_getElem] using hpre.getElem hl
  rw [hget]
  exact List.dropWhile_get_zero_not p l hlen

/-- Python `str.strip()` is idempotent. -/
theorem pyStrip_idem (s : String) : pyStrip (pyStrip s) = pyStrip s := by
  unfold pyStrip
  have hdata : (String.mk ((s.toList.dropWhile isPyWS).rdropWhile isPyWS)).toList
      = (s.toList.dropWhile isPyWS).rdropWhile isPyWS := rfl
  rw [hdata, stripList_dropWhile_eq, List.rdropWhile_idempotent]

end Ember

namespace Ember

/-- C1 counterexample: with persona `Helper`, chain-of-thought
`Think step by step` and prompt `What is 2+2?`, the assembled prompt is
not the string the claim names: the persona f-string carries its own
trailing newline and the segments are then joined with newlines, so a
blank line follows the persona header and two blank lines precede the
chain-of-thought header. -/
theorem assemble_example_ne_claimed :
    assemble_full_prompt exampleConfig "What is 2+2?"
      ≠ "[Persona: Helper]\nWhat is 2+2?\n\n# Chain of Thought:\nThink step by step" := by
  decide

/-- C1 (amended): with persona `Helper`, chain-of-thought
`Think step by step` and prompt `What is 2+2?`, `_assemble_full_prompt`
yields exactly
`"[Persona: Helper]\n\nWhat is 2+2?\n\n\n# Chain of Thought:\nThink step by step"`. -/
theorem assemble_example_actual :
    assemble_full_prompt exampleConfig "What is 2+2?"
      = "[Persona: Helper]\n\nWhat is 2+2?\n\n\n# Chain of Thought:\nThink step by step" := by
  decide

/-- C2: with a stored temperature of 1.0, calling the generation entry
point with the per-call override `temperature=0.2` does not hand `0.2`
to `invoke_model`: `forward` passes `temperature=` explicitly and then
re-passes `**kwargs`, so the call raises
`TypeError: invoke_model() got multiple values for keyword argument`
before `invoke_model` runs.  This contradicts the documented override
behaviour, so the code, not the claim, is at fault. -/
theorem forward_temperature_override_typeerror (m : LMModule)
    (service : InvokeCall → PyResponse) (prompt : String)
    (h : m.config.temperature = 1) :
    (LMModule.forward m service prompt [("temperature", PyVal.num 0.2)]).1
      = Except.error (PyError.typeError
          "invoke_model() got multiple values for keyword argument temperature") :=
  rfl

/-- Witness for C2 at a concrete module, service and prompt. -/
theorem forward_temperature_override_typeerror_witness :
    (LMModule.forward sampleModule (fun _ => ⟨Option.none, "resp"⟩) "hi"
        [("temperature", PyVal.num 0.2)]).1
      = Except.error (PyError.typeError
          "invoke_model() got multiple values for keyword argument temperature") :=
  forward_temperature_override_typeerror sampleModule
    (fun _ => ⟨Option.none, "resp"⟩) "hi" rfl

/-- C3: when the per-call kwargs carry neither a `temperature` nor a
`max_tokens` key, whatever argument bundle `invoke_model` receives holds
the stored config temperature and max-token values. -/
theorem forward_no_override_uses_config (m : LMModule) (prompt : String)
    (kwargs : Kwargs) (c : InvokeCall)
    (ht : kwargs.lookup "temperature" = Option.none)
    (hm : kwargs.lookup "max_tokens" = Option.none)
    (hc : forwardCall m.config prompt kwargs = Except.ok c) :
    c.temperature = PyVal.num m.config.temperature
      ∧ c.max_tokens = pyOfMaxTokens m.config.max_tokens := by
  unfold forwardCall at hc
  split at hc
  · cases hc
  · cases hc
    constructor
    · simp [kwargsGet, ht]
    · simp [kwargsGet, hm]

/-- Witness for C3 at a concrete module with temperature 1 and
max-token cap 64, called with empty kwargs. -/
theorem forward_no_override_uses_config_witness :
    sampleCall.temperature = PyVal.num sampleModule.config.temperature
      ∧ sampleCall.max_tokens = pyOfMaxTokens sampleModule.config.max_tokens :=
  forward_no_override_uses_config sampleModule "hi" [] sampleCall
    rfl rfl rfl

/-- C4: with neither persona nor chain-of-thought configured, assembly
returns the user prompt stripped of leading and trailing whitespace and
otherwise unchanged. -/
theorem assemble_no_persona_no_cot (config : LMModuleConfig) (prompt : String)
    (hp : config.persona = Option.none) (hc : config.cot_prompt = Option.none) :
    assemble_full_prompt config prompt = pyStrip prompt := by
  unfold assemble_full_prompt assembleSegments
  rw [hp, hc]
  simp [strTruthy, joinNL, pyStrip_idem]

/-- Witness for C4 at a concrete config and a prompt with surrounding
whitespace. -/
theorem assemble_no_persona_no_cot_witness :
    assemble_full_prompt sampleConfig "  What is 2+2? \n" = pyStrip "  What is 2+2? \n" :=
  assemble_no_persona_no_cot sampleConfig "  What is 2+2? \n" rfl rfl

/-- C5: `get_default_model_service` ignores both of its parameters and
always returns a `ModelService` built from the module-level
`GLOBAL_MODEL_REGISTRY` and a freshly constructed `UsageService`. -/
theorem get_default_model_service_ignores_args (registry : ModelRegistry)
    (usage_service : UsageService) :
    get_default_model_service registry usage_service
      = ModelService.mk GLOBAL_MODEL_REGISTRY UsageService.new :=
  rfl

/-- C6: a generation call leaves every field of the stored config
untouched, whether the call produces a result or an error. -/
theorem forward_preserves_config (m : LMModule)
    (service : InvokeCall → PyResponse) (prompt : String) (kwargs : Kwargs) :
    (LMModule.forward m service prompt kwargs).2.config.model_id = m.config.model_id
    ∧ (LMModule.forward m service prompt kwargs).2.config.temperature = m.config.temperature
    ∧ (LMModule.forward m service prompt kwargs).2.config.max_tokens = m.config.max_tokens
    ∧ (LMModule.forward m service prompt kwargs).2.config.cot_prompt = m.config.cot_prompt
    ∧ (LMModule.forward m service prompt kwargs).2.config.persona = m.config.persona :=
  ⟨rfl, rfl, rfl, rfl, rfl⟩

/-- C7: constructing an `LMModuleConfig` succeeds exactly when the
temperature lies in `[0, 5]`, endpoints included, and the accepted value
is stored unchanged; values outside the interval raise a validation
error. -/
theorem config_temperature_validation (model_id : String) (t : ℚ)
    (max_tokens : Option Int) (cot_prompt persona : Option String) :
    (0 ≤ t ∧ t ≤ 5 →
        LMModuleConfig.validate model_id t max_tokens cot_prompt persona
          = Except.ok ⟨model_id, t, max_tokens, cot_prompt, persona⟩)
    ∧ (t < 0 ∨ 5 < t →
        ∃ e, LMModuleConfig.validate model_id t max_tokens cot_prompt persona
          = Except.error e) := by
  constructor
  · rintro ⟨h0, h5⟩
    unfold LMModuleConfig.validate
    rw [if_neg (not_lt.mpr h0), if_neg (not_lt.mpr h5)]
  · rintro (h | h)
    · exact ⟨"temperature: Input should be greater than or equal to 0", by
        unfold LMModuleConfig.validate
        rw [if_pos h]⟩
    · exact ⟨"temperature: Input should be less than or equal to 5", by
        unfold LMModuleConfig.validate
        rw [if_neg (not_lt.mpr (le_of_lt (lt_trans (by norm_num) h))), if_pos h]⟩

/-- Witness for C7: the endpoint 5 is accepted and stored unchanged,
and 6 is rejected. -/
theorem config_temperature_validation_witness :
    (LMModuleConfig.validate "openai:gpt-4o" 5 Option.none Option.none Option.none
        = Except.ok ⟨"openai:gpt-4o", 5, Option.none, Option.none, Option.none⟩)
    ∧ ∃ e, LMModuleConfig.validate "openai:gpt-4o" 6 Option.none Option.none Option.none
        = Except.error e :=
  ⟨(config_temperature_validation "openai:gpt-4o" 5 Option.none Option.none
      Option.none).1 ⟨by norm_num, by norm_num⟩,
   (config_temperature_validation "openai:gpt-4o" 6 Option.none Option.none
      Option.none).2 (Or.inr (by norm_num))⟩

/-- C8: when the dispatched call succeeds, `forward` returns the
`data` field of the response when the response has one, and the `str()`
conversion of the raw response otherwise. -/
theorem forward_response_extraction (m : LMModule)
    (service : InvokeCall → PyResponse) (prompt : String) (kwargs : Kwargs)
    (c : InvokeCall) (hc : forwardCall m.config prompt kwargs = Except.ok c) :
    (∀ d, (service c).data = some d →
        (LMModule.forward m service prompt kwargs).1 = Except.ok d)
    ∧ ((service c).data = Option.none →
        (LMModule.forward m service prompt kwargs).1 = Except.ok (service c).str) := by
  constructor
  · intro d hd
    unfold LMModule.forward
    rw [hc]
    simp [Except.map, extractResponseText, hd]
  · intro hd
    unfold LMModule.forward
    rw [hc]
    simp [Except.map, extractResponseText, hd]

/-- Witness for C8: a service whose response exposes `data := "4"`
makes the forward call return `"4"`. -/
theorem forward_response_extraction_witness :
    (LMModule.forward sampleModule (fun _ => ⟨some "4", "raw"⟩) "hi" []).1
      = Except.ok "4" :=
  (forward_response_extraction sampleModule (fun _ => ⟨some "4", "raw"⟩)
      "hi" [] sampleCall rfl).1 "4" rfl

/-- C9: constructing an `LMModule` without a model service raises
`TypeError` — the fallback calls `get_default_model_service()` with zero
arguments while that function declares two required positional
parameters — and no module state is produced. -/
theorem init_none_service_raises_typeerror (config : LMModuleConfig) :
    LMModule.init config Option.none
      = Except.error (PyError.typeError
          "get_default_model_service() missing 2 required positional arguments") :=
  rfl

/-- C10: an empty persona string assembles exactly like an absent
persona, and an empty chain-of-thought string assembles exactly like an
absent chain-of-thought: both guards test Python truthiness, which the
empty string fails. -/
theorem assemble_empty_string_like_none (config : LMModuleConfig)
    (prompt : String) :
    assemble_full_prompt { config with persona := some "" } prompt
        = assemble_full_prompt { config with persona := Option.none } prompt
    ∧ assemble_full_prompt { config with cot_prompt := some "" } prompt
        = assemble_full_prompt { config with cot_prompt := Option.none } prompt :=
  ⟨rfl, rfl⟩

end Ember
